import Mathlib

/-
Verification of the AI service of the stasher-backend repository
(quota tracking, entity extraction, inventory context building and
collection-suggestion generation), as a shallow embedding in Lean.

Modelling conventions:
  - JavaScript numbers that hold counters are modelled as Int (the Prisma
    columns are Int); monetary values and confidence scores as Rat
    (exact arithmetic; no division in the code gets anywhere near the
    2^-53 resolution where binary doubles would diverge from rationals).
  - Date values are modelled as a local calendar-day index plus the
    minute of that day; the date-fns isToday check compares day indices,
    and the next-local-midnight computation is day+1, minute 0.
  - Fallible steps (the external generative call, response-text
    extraction, JSON parsing) are explicit Except / Option values; the
    external model is an oracle input so every possible model behaviour
    is quantified over.
  - Database reads/writes are explicit state passing over an AppState
    record; prisma findUnique/findMany/update become List operations.
-/

set_option linter.unusedVariables false

namespace Stasher

/-- Decidable equality for Except values (used to let outcome records
derive decidable equality, so witnesses can be settled by decide). -/
instance {ε α : Type _} [DecidableEq ε] [DecidableEq α] :
    DecidableEq (Except ε α) := fun a b =>
  match a, b with
  | .error e, .error f => decidable_of_iff (e = f) (by simp)
  | .ok a, .ok b => decidable_of_iff (a = b) (by simp)
  | .error _, .ok _ => isFalse (fun h => by cases h)
  | .ok _, .error _ => isFalse (fun h => by cases h)

/-- Local time point: day is a local calendar-day index, minute the
minutes elapsed since that day's local midnight. -/
structure DateTime where
  day : Nat
  minute : Nat
deriving DecidableEq, Repr

/-- Total minutes since epoch, for date comparisons (date-fns isBefore). -/
def DateTime.toMinutes (d : DateTime) : Nat := d.day * 1440 + d.minute

/-- Embedding of date-fns isToday: same local calendar day as now. -/
def isToday (t : DateTime) (now : DateTime) : Bool := t.day == now.day

/-- Embedding of date-fns isBefore on timestamps. -/
def isBefore (a b : DateTime) : Bool := a.toMinutes < b.toMinutes

/-- Next local midnight after now: tomorrow.setDate(+1); setHours(0,0,0,0). -/
def nextMidnight (now : DateTime) : DateTime := ⟨now.day + 1, 0⟩

/-- Prisma User row (the AI-quota columns; both timestamps are non-null,
schema has default now()). -/
structure User where
  id : String
  aiQueriesToday : Int
  aiLastQueryAt : DateTime
  aiAnalysesToday : Int
  aiAnalysisLastAt : DateTime
deriving DecidableEq, Repr

/-- The two daily limits of AiService. -/
def dailyQueryLimit : Int := 10

def dailyAnalysisLimit : Int := 5

/-- Quota status payload: remaining, total, optional reset time. -/
structure QuotaStatus where
  remaining : Int
  total : Int
  resetTime : Option DateTime
deriving DecidableEq, Repr

/-- Service-level failure: InternalServerErrorException, or
ForbiddenException carrying the quota status payload (the human-readable
message string is not modelled). -/
inductive ServiceError where
  | internal : ServiceError
  | forbidden : QuotaStatus → ServiceError
deriving DecidableEq, Repr

/-- Embedding of prisma.user.findUnique on the users table. -/
def findUser (users : List User) (userId : String) : Option User :=
  users.find? (fun u => u.id == userId)

/-- Embedding of AiService.calculateResetTime: undefined unless the last
query was today, else tomorrow at local midnight. Note it reads
aiLastQueryAt whichever quota it is called for. -/
def calculateResetTime (user : User) (now : DateTime) : Option DateTime :=
  if isToday user.aiLastQueryAt now then some (nextMidnight now) else none

/-- Effective query count after the lazy day-roll reset: the stored
counter if aiLastQueryAt is today, else 0. -/
def effectiveQueries (user : User) (now : DateTime) : Int :=
  if isToday user.aiLastQueryAt now then user.aiQueriesToday else 0

/-- Effective analysis count after the lazy day-roll reset. -/
def effectiveAnalyses (user : User) (now : DateTime) : Int :=
  if isToday user.aiAnalysisLastAt now then user.aiAnalysesToday else 0

/-- Embedding of AiService.getQueryStatus. -/
def getQueryStatus (users : List User) (userId : String) (now : DateTime) :
    Except ServiceError QuotaStatus :=
  match findUser users userId with
  | none => .error .internal
  | some user =>
    let currentQueries := effectiveQueries user now
    let remaining := max 0 (dailyQueryLimit - currentQueries)
    let resetTime := if remaining = 0 then calculateResetTime user now else none
    .ok ⟨remaining, dailyQueryLimit, resetTime⟩

/-- Embedding of AiService.getAnalysisStatus (its reset time is computed
by calculateResetTime, hence from aiLastQueryAt). -/
def getAnalysisStatus (users : List User) (userId : String) (now : DateTime) :
    Except ServiceError QuotaStatus :=
  match findUser users userId with
  | none => .error .internal
  | some user =>
    let currentAnalyses := effectiveAnalyses user now
    let remaining := max 0 (dailyAnalysisLimit - currentAnalyses)
    let resetTime := if remaining = 0 then calculateResetTime user now else none
    .ok ⟨remaining, dailyAnalysisLimit, resetTime⟩

/-- Reference to a collection an item belongs to (the select id/name of
the item.collections include). -/
structure CollectionRef where
  id : String
  name : String
deriving DecidableEq, Repr

/-- Prisma Item row together with the relations the AI service includes:
resolved location name, tag names, and collection memberships. -/
structure Item where
  id : String
  ownerId : String
  name : String
  description : Option String
  quantity : Int
  price : Option Rat
  priceless : Bool
  imageUrl : Option String
  archived : Bool
  locationName : Option String
  expiryDate : Option DateTime
  createdAt : DateTime
  tagNames : List String
  collectionsOf : List CollectionRef
deriving DecidableEq, Repr

/-- Prisma Collection row with the included item count. -/
structure Collection where
  id : String
  ownerId : String
  name : String
  description : Option String
  coverImage : Option String
  itemCount : Nat
deriving DecidableEq, Repr

/-- Persistent state the AI service reads and writes. -/
structure AppState where
  users : List User
  items : List Item
  collections : List Collection
deriving DecidableEq, Repr

/-- Update of the user row matched by id (prisma.user.update where id). -/
def updateUserRow (st : AppState) (userId : String) (f : User → User) : AppState :=
  { st with users := st.users.map (fun u => if u.id == userId then f u else u) }

/-- JavaScript regex word character: [A-Za-z0-9_]. -/
def isWordChar (c : Char) : Bool := c.isAlphanum || c == '_'

/-- Longest leading run of word characters, with the remaining suffix. -/
def takeWordRun : List Char → List Char × List Char
  | [] => ([], [])
  | c :: cs =>
    if isWordChar c then
      let r := takeWordRun cs
      (c :: r.1, r.2)
    else ([], c :: cs)

/-- Fuel-driven scan for the regex prefix:(\w+) with the /g flag:
leftmost matches, continuing after each match; on a prefix hit without a
following word character the engine advances one position. The fuel is
always at least the list length at each call, so it never runs out. -/
def scanForAux (p : Char) (pat : List Char) : Nat → List Char → List (List Char)
  | 0, _ => []
  | _, [] => []
  | fuel + 1, c :: cs =>
    if (p :: pat).isPrefixOf (c :: cs) then
      let res := takeWordRun (cs.drop pat.length)
      if res.1.isEmpty then scanForAux p pat fuel cs
      else res.1 :: scanForAux p pat fuel res.2
    else scanForAux p pat fuel cs

/-- Captured groups of the global regex scan for (p :: pat)(\w+). In the
source the String.replace of the matched literal prefix yields exactly
the captured group, since the group cannot contain the colon that ends
the prefix. -/
def scanFor (p : Char) (pat : List Char) (s : String) : List String :=
  (scanForAux p pat s.data.length s.data).map (fun l => ⟨l⟩)

/-- Ids extracted by aiResponse.match on the pattern ID:(\w+). -/
def idTokens (s : String) : List String := scanFor 'I' "D:".data s

/-- Ids extracted by aiResponse.match on the pattern COLLECTION_ID:(\w+). -/
def collectionIdTokens (s : String) : List String :=
  scanFor 'C' "OLLECTION_ID:".data s

/-- Found-item payload returned to the client. -/
structure FoundItem where
  id : String
  name : String
  location : Option String
  image : Option String
  tags : List String
  quantity : Int
  description : Option String
deriving DecidableEq, Repr

/-- Found-collection payload returned to the client. -/
structure FoundCollection where
  id : String
  name : String
  description : Option String
  itemCount : Nat
  coverImage : Option String
deriving DecidableEq, Repr

/-- Projection of an item row onto the found-item payload. -/
def itemToFound (it : Item) : FoundItem :=
  ⟨it.id, it.name, it.locationName, it.imageUrl, it.tagNames, it.quantity,
    it.description⟩

/-- Embedding of AiService.parseFoundItems: extract ID tokens, then
prisma.item.findMany restricted to those ids AND ownerId = userId. -/
def parseFoundItems (items : List Item) (userId : String) (aiResponse : String) :
    List FoundItem :=
  let itemIdMatches := idTokens aiResponse
  if itemIdMatches.isEmpty then []
  else
    (items.filter (fun it => itemIdMatches.contains it.id && it.ownerId == userId)).map
      itemToFound

/-- Projection of a collection row onto the found-collection payload. -/
def collectionToFound (c : Collection) : FoundCollection :=
  ⟨c.id, c.name, c.description, c.itemCount, c.coverImage⟩

/-- Embedding of AiService.parseFoundCollections: extract COLLECTION_ID
tokens, then prisma.collection.findMany restricted to those ids AND
ownerId = userId. -/
def parseFoundCollections (collections : List Collection) (userId : String)
    (aiResponse : String) : List FoundCollection :=
  let collectionIdMatches := collectionIdTokens aiResponse
  if collectionIdMatches.isEmpty then []
  else
    (collections.filter
        (fun c => collectionIdMatches.contains c.id && c.ownerId == userId)).map
      collectionToFound

/-- JavaScript Array.prototype.join with a separator: empty string for
the empty array, no separator around a single element. -/
def jsJoin (sep : String) : List String → String
  | [] => ""
  | [x] => x
  | x :: y :: xs => x ++ sep ++ jsJoin sep (y :: xs)

/-- JavaScript String.prototype.toLowerCase, modelled by ASCII case
folding (every string the service lowercases is compared against ASCII
keywords). -/
def jsToLower (s : String) : String := ⟨s.data.map Char.toLower⟩

/-- Substring test on character lists (String.prototype.includes). -/
def containsSub (needle : List Char) : List Char → Bool
  | [] => needle.isEmpty
  | c :: t => needle.isPrefixOf (c :: t) || containsSub needle t

/-- JavaScript String.prototype.includes. -/
def jsIncludes (hay needle : String) : Bool := containsSub needle.data hay.data

/-- JavaScript String.prototype.split(" "): splits at every single space
and keeps empty pieces. -/
def splitChars : List Char → List (List Char)
  | [] => [[]]
  | c :: t =>
    match splitChars t with
    | [] => [[c]]
    | h :: rest => if c == ' ' then [] :: h :: rest else (c :: h) :: rest

/-- Word list of a name: split on single spaces. -/
def splitOnSpace (s : String) : List String := (splitChars s.data).map (fun l => ⟨l⟩)

/-- Truthiness of an optional string (undefined, null and the empty
string are falsy in JavaScript). -/
def jsTruthyStr : Option String → Bool
  | none => false
  | some s => s ≠ ""

/-- Two-digit rendering of a value below 100. -/
def pad2 (k : Nat) : String := if k < 10 then "0" ++ toString k else toString k

/-- Rendering of Decimal.toFixed(2) (round half up to two decimals). -/
def formatPrice (q : Rat) : String :=
  let cents : Int := (q * 100 + 1 / 2).floor
  let n := cents.natAbs
  (if cents < 0 then "-" else "") ++ toString (n / 100) ++ "." ++ pad2 (n % 100)

/-- Rendering of format(date, MMM d, yyyy) from date-fns. The civil
calendar text is modelled as a rendering of the abstract day index; no
claim depends on the rendered characters. -/
def formatMMMdyyyy (d : DateTime) : String := "day " ++ toString d.day

/-- Embedding of the formatItem closure of generateInventoryContext
(identical in the large-inventory and small-inventory branches). -/
def formatItem (today : DateTime) (item : Item) : String :=
  let details : List String :=
    (if 0 < item.tagNames.length then
        ["Categories: [" ++ jsJoin ", " item.tagNames ++ "]"]
      else [])
    ++ ["Quantity: " ++ toString item.quantity]
    ++ (if item.priceless then ["Value: Priceless"]
        else
          match item.price with
          | some p => if p = 0 then [] else ["Value: " ++ formatPrice p]
          | none => [])
    ++ (if jsTruthyStr item.description then
          ["Description: \"" ++ item.description.getD "" ++ "\""]
        else [])
    ++ ["Location: " ++
          (if item.archived then "ARCHIVED"
            else if jsTruthyStr item.locationName then item.locationName.getD ""
            else "unspecified location")]
    ++ (match item.expiryDate with
        | some e =>
          let expiry := formatMMMdyyyy e
          [if isBefore e today then "EXPIRED (" ++ expiry ++ ")"
            else "Expires: " ++ expiry]
        | none => [])
  "• ID:" ++ item.id ++ " \"" ++ item.name ++ "\" - " ++ jsJoin " | " details

/-- Embedding of AiService.generateInventoryContext over the user's item
rows (the prisma query restricted to ownerId). -/
def generateInventoryContext (userId : String) (items : List Item)
    (today : DateTime) : String :=
  if items.isEmpty then
    "This user (" ++ userId ++ ") has no items in their inventory."
  else
    let activeItems := items.filter (fun i => !i.archived)
    let archivedItems := items.filter (fun i => i.archived)
    if 10 < activeItems.length then
      let sampleItems := activeItems.take 8
      let remainingCount := activeItems.length - 8
      let context :=
        "USER " ++ userId ++ " INVENTORY SUMMARY:\nTotal: "
          ++ toString activeItems.length ++ " active items, "
          ++ toString archivedItems.length ++ " archived\n\nSAMPLE ACTIVE ITEMS (showing first 8 of "
          ++ toString activeItems.length ++ "):\n"
          ++ jsJoin "\n" (sampleItems.map (formatItem today))
          ++ "\n\n... and " ++ toString remainingCount
          ++ " more items not shown in this sample."
      context ++
        (if 0 < archivedItems.length then
          "\n\nARCHIVED ITEMS (" ++ toString archivedItems.length
            ++ "): Available but not shown in detail."
        else "")
    else
      "USER " ++ userId ++ " INVENTORY:\n\n"
        ++ (if 0 < activeItems.length then
            "ACTIVE ITEMS (" ++ toString activeItems.length ++ "):\n"
              ++ jsJoin "\n" (activeItems.map (formatItem today)) ++ "\n\n"
          else "")
        ++ (if 0 < archivedItems.length then
            "ARCHIVED ITEMS (" ++ toString archivedItems.length ++ "):\n"
              ++ jsJoin "\n" (archivedItems.map (formatItem today))
          else "")

/-- Response object of the external generative call: text() either
throws (for example on blocked content) or returns the response text. -/
structure ModelResponse where
  text : Except Unit String
deriving DecidableEq, Repr

/-- Oracle describing one external model.generateContent call: it either
throws or returns a response object. The prompt fed to the call is pure
string assembly from the state and does not influence which behaviours
are possible, so it is not re-assembled here. -/
structure ModelOracle where
  genResult : Except Unit ModelResponse
deriving DecidableEq, Repr

/-- Answer payload of answerQuestion. The cleaned display text and the
wall-clock responseTime are not modelled (no claim concerns them, and
wall-clock timing is not a function of the inputs). -/
structure AiResponse where
  foundItems : List FoundItem
  foundCollections : List FoundCollection
  queryStatus : QuotaStatus
deriving DecidableEq, Repr

/-- Outcome of answerQuestion: the returned-or-thrown value, the
post-call persistent state, and whether the external model was invoked. -/
structure AnswerOutcome where
  result : Except ServiceError AiResponse
  state : AppState
  modelCalled : Bool
deriving DecidableEq, Repr

/-- Embedding of AiService.answerQuestion. Statement order follows the
source: quota gate (throws ForbiddenException, rethrown by the catch),
external call, then the quota update, then response-text extraction and
entity parsing; every throw inside the try block surfaces as an
InternalServerErrorException. -/
def answerQuestion (st : AppState) (oracle : ModelOracle) (userId : String)
    (question : String) (now : DateTime) : AnswerOutcome :=
  match findUser st.users userId with
  | none => ⟨.error .internal, st, false⟩
  | some user =>
    let currentQueries := effectiveQueries user now
    if dailyQueryLimit ≤ currentQueries then
      ⟨.error (.forbidden ⟨0, dailyQueryLimit, calculateResetTime user now⟩),
        st, false⟩
    else
      match oracle.genResult with
      | .error _ => ⟨.error .internal, st, true⟩
      | .ok resp =>
        let st' := updateUserRow st userId (fun u =>
          { u with aiQueriesToday := currentQueries + 1, aiLastQueryAt := now })
        match resp.text with
        | .error _ => ⟨.error .internal, st', true⟩
        | .ok t =>
          let responseText :=
            if t = "" then "Sorry, I had trouble generating a response." else t
          let foundItems := parseFoundItems st'.items userId responseText
          let foundCollections :=
            parseFoundCollections st'.collections userId responseText
          match getQueryStatus st'.users userId now with
          | .error _ => ⟨.error .internal, st', true⟩
          | .ok queryStatus =>
            ⟨.ok ⟨foundItems, foundCollections, queryStatus⟩, st', true⟩

/-- JSON value, the possible results of JSON.parse. -/
inductive Json where
  | null : Json
  | bool (b : Bool) : Json
  | num (q : Rat) : Json
  | str (s : String) : Json
  | arr (elems : List Json) : Json
  | obj (fields : List (String × Json)) : Json

/-- Field lookup on a JSON value (property access on the parsed object;
anything but an object yields undefined). -/
def Json.getField : Json → String → Option Json
  | .obj fields, k => (fields.find? (fun p => p.1 == k)).map (fun p => p.2)
  | _, _ => none

/-- JavaScript truthiness of a possibly-undefined JSON value. -/
def jsTruthy : Option Json → Bool
  | none => false
  | some .null => false
  | some (.bool b) => b
  | some (.num q) => if q = 0 then false else true
  | some (.str s) => if s = "" then false else true
  | some (.arr _) => true
  | some (.obj _) => true

/-- Array.isArray on a possibly-undefined JSON value. -/
def jsIsArray : Option Json → Bool
  | some (.arr _) => true
  | _ => false

/-- Outcome of analyzeImage: the returned-or-thrown parsed value, the
post-call state, and whether the external model was invoked. -/
structure AnalyzeOutcome where
  result : Except ServiceError Json
  state : AppState
  modelCalled : Bool

/-- Embedding of AiService.analyzeImage. The composite of
cleanJsonResponse and JSON.parse is taken as a parameter (JSON.parse is
library code, not part of this repository); theorems quantify over it.
Statement order follows the source: quota gate, external call, text
extraction, parse, structural validation, and only then the quota
update. -/
def analyzeImage (st : AppState) (oracle : ModelOracle)
    (parse : String → Except Unit Json) (userId : String) (now : DateTime) :
    AnalyzeOutcome :=
  match findUser st.users userId with
  | none => ⟨.error .internal, st, false⟩
  | some user =>
    let currentAnalyses := effectiveAnalyses user now
    if dailyAnalysisLimit ≤ currentAnalyses then
      ⟨.error (.forbidden ⟨0, dailyAnalysisLimit, calculateResetTime user now⟩),
        st, false⟩
    else
      match oracle.genResult with
      | .error _ => ⟨.error .internal, st, true⟩
      | .ok resp =>
        match resp.text with
        | .error _ => ⟨.error .internal, st, true⟩
        | .ok t =>
          match parse t with
          | .error _ => ⟨.error .internal, st, true⟩
          | .ok parsed =>
            if !jsTruthy (parsed.getField "name")
                || !jsIsArray (parsed.getField "tags") then
              ⟨.error .internal, st, true⟩
            else
              let st' := updateUserRow st userId (fun u =>
                { u with aiAnalysesToday := currentAnalyses + 1,
                         aiAnalysisLastAt := now })
              ⟨.ok parsed, st', true⟩

/-- UTF-16 code units of one character (surrogate pair for characters
beyond the basic multilingual plane), as JavaScript strings are indexed. -/
def charCodeUnits (c : Char) : List Nat :=
  let v := c.toNat
  if v < 65536 then [v]
  else [55296 + (v - 65536) / 1024, 56320 + (v - 65536) % 1024]

/-- UTF-16 code-unit sequence of a character list. -/
def utf16Units : List Char → List Nat
  | [] => []
  | c :: cs => charCodeUnits c ++ utf16Units cs

/-- Coercion of an integer to a signed 32-bit value (the ToInt32
conversion applied by JavaScript bitwise operators). -/
def toInt32 (z : Int) : Int :=
  let m := z % 4294967296
  if m < 2147483648 then m else m - 4294967296

/-- One step of the suggestion-id hash loop:
hash = (hash LSHIFT 5) - hash + charCode; hash = hash AND hash. Both
bitwise operators coerce through signed 32-bit integers; the
intermediate sum is exact in doubles. -/
def hashStep (h : Int) (code : Nat) : Int := toInt32 (toInt32 (h * 32) - h + code)

/-- Hash of the content string, folding over its UTF-16 code units
(String.prototype.charCodeAt positions). -/
def hashString (s : String) : Int := (utf16Units s.data).foldl hashStep 0

/-- Lexicographic comparison of UTF-16 code-unit sequences (the default
JavaScript string ordering used by Array.prototype.sort). -/
def unitsLe : List Nat → List Nat → Bool
  | [], _ => true
  | _ :: _, [] => false
  | a :: as, b :: bs => if a < b then true else if a == b then unitsLe as bs else false

/-- JavaScript default string order (UTF-16 code-unit lexicographic). -/
def jsStrLe (a b : String) : Prop := unitsLe (utf16Units a.data) (utf16Units b.data) = true

instance : DecidableRel jsStrLe := fun a b =>
  inferInstanceAs (Decidable (_ = true))

/-- Array.prototype.sort() on an array of strings. -/
def jsSortStrings (l : List String) : List String := List.insertionSort jsStrLe l

/-- Base-36 digit character (0-9 then a-z), as Number.prototype.toString(36). -/
def base36Digit (n : Nat) : Char :=
  if n < 10 then Char.ofNat (48 + n) else Char.ofNat (87 + n)

/-- Fuel-driven base-36 digit expansion; the fuel n + 1 always suffices. -/
def natToBase36Aux : Nat → Nat → List Char
  | 0, _ => []
  | fuel + 1, n =>
    if n < 36 then [base36Digit n]
    else natToBase36Aux fuel (n / 36) ++ [base36Digit (n % 36)]

/-- Number.prototype.toString(36) on a non-negative integer. -/
def natToBase36 (n : Nat) : String := ⟨natToBase36Aux (n + 1) n⟩

/-- String.prototype.substring(0, n). -/
def jsSubstring0 (n : Nat) (s : String) : String := ⟨s.data.take n⟩

/-- Embedding of AiService.generateSuggestionId: hash of
name-sortedItemIds-origin, absolute value, base 36, first 8 characters.
Array.prototype.sort sorts the id array in place by UTF-16 order. -/
def generateSuggestionId (name : String) (itemIds : List String)
    (suggestedBy : String) : String :=
  let content := name ++ "-" ++ jsJoin "," (jsSortStrings itemIds) ++ "-" ++ suggestedBy
  jsSubstring0 8 (natToBase36 (hashString content).natAbs)

/-- Annotation entry: a candidate item that already belongs to other
collections. -/
structure AlreadyInfo where
  itemId : String
  itemName : String
  existingCollections : List CollectionRef
deriving DecidableEq, Repr

/-- Full collection-suggestion candidate. -/
structure CollectionSuggestion where
  name : String
  description : String
  itemIds : List String
  itemNames : List String
  suggestedBy : String
  confidence : Rat
  suggestionId : String
  itemsAlreadyInCollections : Option (List AlreadyInfo)
deriving DecidableEq, Repr

/-- Candidate before the id and collection-awareness annotation. -/
structure BaseSuggestion where
  name : String
  description : String
  itemIds : List String
  itemNames : List String
  suggestedBy : String
  confidence : Rat
deriving DecidableEq, Repr

/-- Embedding of AiService.addCollectionAwareness. Since the id
generator sorts the shared itemIds array in place, the emitted
suggestion carries the sorted ids. -/
def addCollectionAwareness (items : List Item) (s : BaseSuggestion) :
    CollectionSuggestion :=
  let already := (items.filter (fun it => !it.collectionsOf.isEmpty)).map
    (fun it => AlreadyInfo.mk it.id it.name it.collectionsOf)
  ⟨s.name, s.description, jsSortStrings s.itemIds, s.itemNames, s.suggestedBy,
    s.confidence, generateSuggestionId s.name s.itemIds s.suggestedBy,
    if already.isEmpty then none else some already⟩

/-- Embedding of AiService.calculateCollectionSimilarity: common words
of the lowercased space-split names over the larger word count. The
common-word list counts duplicates as the source filter does. -/
def calculateCollectionSimilarity (name1 name2 : String) : Rat :=
  let words1 := splitOnSpace (jsToLower name1)
  let words2 := splitOnSpace (jsToLower name2)
  let commonWords := words1.filter (fun w => words2.contains w)
  (commonWords.length : Rat) / (max words1.length words2.length : Rat)

/-- Existing collection as selected for the suggestion pipeline. -/
structure ExistingCollection where
  id : String
  name : String
  description : Option String
  itemCount : Nat
deriving DecidableEq, Repr

/-- Embedding of AiService.shouldSuppressSuggestion: an undefined
annotation returns false immediately; otherwise suppress when more than
80 percent of the items are already collected or some existing
collection name is more than 70 percent similar. -/
def shouldSuppressSuggestion (s : CollectionSuggestion)
    (existingCollections : List ExistingCollection) : Bool :=
  match s.itemsAlreadyInCollections with
  | none => false
  | some already =>
    let collectionPercentage : Rat := (already.length : Rat) / (s.itemIds.length : Rat)
    let similarCollectionExists := existingCollections.any (fun c =>
      decide (calculateCollectionSimilarity s.name c.name > 7 / 10))
    decide (collectionPercentage > 4 / 5) || similarCollectionExists

/-- Location key of an item: the resolved location name with the
Unknown Location fallback for a missing or empty name. -/
def locKey (i : Item) : String :=
  if jsTruthyStr i.locationName then i.locationName.getD "" else "Unknown Location"

/-- First-occurrence deduplication (Map insertion-order keys), with fuel
that always suffices. -/
def dedupFirstAux : Nat → List String → List String
  | 0, _ => []
  | _, [] => []
  | fuel + 1, x :: xs => x :: dedupFirstAux fuel (xs.filter (fun y => y != x))

/-- Keys of a Map built by insertion, in insertion order. -/
def dedupFirst (l : List String) : List String := dedupFirstAux l.length l

/-- Embedding of AiService.groupByLocation: group items by location key,
keep groups of at least 3 items whose location is not already covered by
an existing collection name, and emit Location Items suggestions with
confidence 0.9. -/
def groupByLocation (items : List Item)
    (existingCollections : List ExistingCollection) : List CollectionSuggestion :=
  let keys := dedupFirst (items.map locKey)
  let entries := keys.map (fun k => (k, items.filter (fun i => locKey i == k)))
  (entries.filter (fun e =>
      if e.2.length < 3 then false
      else
        !(existingCollections.any (fun c =>
          jsIncludes (jsToLower c.name) (jsToLower e.1)
            || (jsIncludes (jsToLower c.name) "items"
                && decide (calculateCollectionSimilarity c.name (e.1 ++ " Items")
                    > 7 / 10)))))).map
    (fun e =>
      addCollectionAwareness e.2
        ⟨e.1 ++ " Items", "Items located in " ++ e.1,
          e.2.map (fun i => i.id), e.2.map (fun i => i.name), "location", 9 / 10⟩)

/-- Truthiness of the optional price (a zero price is falsy). -/
def jsTruthyPrice : Option Rat → Bool
  | none => false
  | some p => if p = 0 then false else true

/-- Embedding of AiService.groupByPrice: budget (under 1000), expensive
(5000 and above) and priceless groups of at least 3 items, unless the
user already organizes by price. -/
def groupByPrice (items : List Item)
    (existingCollections : List ExistingCollection) : List CollectionSuggestion :=
  let pricedItems := items.filter (fun i => jsTruthyPrice i.price && !i.priceless)
  let pricelessItems := items.filter (fun i => i.priceless)
  let hasPriceBasedCollections := existingCollections.any (fun c =>
    let n := jsToLower c.name
    jsIncludes n "budget" || jsIncludes n "expensive" || jsIncludes n "cheap"
      || jsIncludes n "costly" || jsIncludes n "priceless" || jsIncludes n "valuable"
      || jsIncludes n "affordable" || jsIncludes n "premium")
  (if !hasPriceBasedCollections && 3 ≤ pricedItems.length then
      (let lowPriceItems := pricedItems.filter (fun i =>
        match i.price with | some p => decide (p < 1000) | none => false)
      if 3 ≤ lowPriceItems.length then
        [addCollectionAwareness lowPriceItems
          ⟨"Budget Items (Under ₹1000)", "Affordable items under ₹1000",
            lowPriceItems.map (fun i => i.id), lowPriceItems.map (fun i => i.name),
            "price", 7 / 10⟩]
      else [])
      ++
      (let highPriceItems := pricedItems.filter (fun i =>
        match i.price with | some p => decide (5000 ≤ p) | none => false)
      if 3 ≤ highPriceItems.length then
        [addCollectionAwareness highPriceItems
          ⟨"Expensive Items (₹5000+)", "High-value items worth ₹5000 or more",
            highPriceItems.map (fun i => i.id), highPriceItems.map (fun i => i.name),
            "price", 7 / 10⟩]
      else [])
    else [])
  ++ (if !hasPriceBasedCollections && 3 ≤ pricelessItems.length then
      [addCollectionAwareness pricelessItems
        ⟨"Priceless Items", "Items with sentimental or unmeasurable value",
          pricelessItems.map (fun i => i.id), pricelessItems.map (fun i => i.name),
          "price", 4 / 5⟩]
    else [])

/-- Embedding of AiService.groupByPattern: recent additions of the last
7 days (unless a recent-style collection exists) and items without
photos (only for users with more than 2 collections). -/
def groupByPattern (now : DateTime) (items : List Item)
    (existingCollections : List ExistingCollection) : List CollectionSuggestion :=
  let hasRecentlyCreatedCollections := existingCollections.any (fun c =>
    let n := jsToLower c.name
    jsIncludes n "recent" || jsIncludes n "new" || jsIncludes n "latest")
  (if !hasRecentlyCreatedCollections then
      let recentItems := items.filter (fun i =>
        decide ((now.toMinutes : Int) - 10080 ≤ (i.createdAt.toMinutes : Int)))
      if 3 ≤ recentItems.length then
        [addCollectionAwareness recentItems
          ⟨"Recent Additions", "Items added in the last 7 days",
            recentItems.map (fun i => i.id), recentItems.map (fun i => i.name),
            "pattern", 3 / 5⟩]
      else []
    else [])
  ++ (if 2 < existingCollections.length then
      let noPhotoItems := items.filter (fun i => !jsTruthyStr i.imageUrl)
      if 3 ≤ noPhotoItems.length then
        [addCollectionAwareness noPhotoItems
          ⟨"Items Without Photos",
            "Items that could benefit from photos for better organization",
            noPhotoItems.map (fun i => i.id), noPhotoItems.map (fun i => i.name),
            "pattern", 1 / 2⟩]
      else []
    else [])

/-- One suggestion as parsed from the external model's JSON array. -/
structure GeminiRaw where
  name : String
  description : String
  itemNames : List String
deriving DecidableEq, Repr

/-- Embedding of AiService.getGeminiSuggestions. The external call, the
response cleanup and the JSON parse collapse to an oracle that either
fails (the catch returns an empty list) or yields the parsed raw
suggestions; names are matched against the full item set and candidates
with fewer than 3 matched ids are dropped. -/
def getGeminiSuggestions (items : List Item)
    (existingCollections : List ExistingCollection)
    (oracle : Except Unit (List GeminiRaw)) : List CollectionSuggestion :=
  match oracle with
  | .error _ => []
  | .ok raws =>
    (raws.map (fun raw =>
      let matchingItems := items.filter (fun it => raw.itemNames.contains it.name)
      addCollectionAwareness matchingItems
        ⟨raw.name, raw.description, matchingItems.map (fun i => i.id),
          matchingItems.map (fun i => i.name), "gemini", 17 / 20⟩)).filter
      (fun s => 3 ≤ s.itemIds.length)

/-- Ranking order of rankSuggestions: confidence descending, ties broken
by item count descending. -/
def rankRel (a b : CollectionSuggestion) : Prop :=
  b.confidence < a.confidence
    ∨ (a.confidence = b.confidence ∧ b.itemIds.length ≤ a.itemIds.length)

instance : DecidableRel rankRel := fun a b =>
  inferInstanceAs (Decidable (_ ∨ _))

/-- Embedding of AiService.rankSuggestions: stable sort by the ranking
order, then slice(0, 5). -/
def rankSuggestions (suggestions : List CollectionSuggestion) :
    List CollectionSuggestion :=
  (List.insertionSort rankRel suggestions).take 5

/-- The ranking stage of generateCollectionSuggestions: smart filtering
by shouldSuppressSuggestion, rankSuggestions, then the final
slice(0, limit). -/
def rankingStage (suggestions : List CollectionSuggestion)
    (existingCollections : List ExistingCollection) (limit : Nat) :
    List CollectionSuggestion :=
  (rankSuggestions (suggestions.filter
      (fun s => !shouldSuppressSuggestion s existingCollections))).take limit

/-- Ordering used by getAllUserItems (orderBy createdAt desc). -/
def createdDescRel (a b : Item) : Prop :=
  b.createdAt.toMinutes ≤ a.createdAt.toMinutes

instance : DecidableRel createdDescRel := fun a b =>
  inferInstanceAs (Decidable (_ ≤ _))

/-- Embedding of AiService.getAllUserItems: the user's non-archived
items, newest first. -/
def getAllUserItems (st : AppState) (userId : String) : List Item :=
  List.insertionSort createdDescRel
    (st.items.filter (fun i => i.ownerId == userId && !i.archived))

/-- Result payload of generateCollectionSuggestions. -/
structure CollectionSuggestionsResponse where
  suggestions : List CollectionSuggestion
  totalUncollectedItems : Nat
deriving DecidableEq, Repr

/-- Outcome of generateCollectionSuggestions: returned-or-thrown value,
post-call state, and whether the external model was invoked. -/
structure SuggestOutcome where
  result : Except ServiceError CollectionSuggestionsResponse
  state : AppState
  modelCalled : Bool
deriving DecidableEq, Repr

/-- Embedding of AiService.generateCollectionSuggestions. Statement
order follows the source: query-quota gate, item fetch, the minimum
inventory gate (fewer than 3 items returns the empty response before
any generator runs), rule-based generators, the model-backed generator
(its guard is redundant after the gate but kept), smart filtering,
ranking, the quota update, and the final slice to the limit. -/
def generateCollectionSuggestions (st : AppState)
    (oracle : Except Unit (List GeminiRaw)) (userId : String) (now : DateTime)
    (limit : Nat) : SuggestOutcome :=
  match findUser st.users userId with
  | none => ⟨.error .internal, st, false⟩
  | some user =>
    let currentQueries := effectiveQueries user now
    if dailyQueryLimit ≤ currentQueries then
      ⟨.error (.forbidden ⟨0, dailyQueryLimit, calculateResetTime user now⟩),
        st, false⟩
    else
      let allItems := getAllUserItems st userId
      let uncollectedItems := allItems.filter (fun i => i.collectionsOf.isEmpty)
      if allItems.length < 3 then
        ⟨.ok ⟨[], uncollectedItems.length⟩, st, false⟩
      else
        let existingCollections :=
          (st.collections.filter (fun c => c.ownerId == userId)).map
            (fun c => ExistingCollection.mk c.id c.name c.description c.itemCount)
        let ruleSuggestions :=
          groupByLocation allItems existingCollections
            ++ groupByPrice allItems existingCollections
            ++ groupByPattern now allItems existingCollections
        let withGemini :=
          if 3 ≤ allItems.length then
            (ruleSuggestions
              ++ getGeminiSuggestions allItems existingCollections oracle, true)
          else (ruleSuggestions, false)
        let rankedSliced := rankingStage withGemini.1 existingCollections limit
        let st' := updateUserRow st userId (fun u =>
          { u with aiQueriesToday := currentQueries + 1, aiLastQueryAt := now })
        ⟨.ok ⟨rankedSliced, uncollectedItems.length⟩, st', withGemini.2⟩

/-- Sample user for the C2 witness: stored counters at/above the limits,
but both last-used timestamps on day 99 while now is day 100. -/
def staleUser : User := ⟨"u1", 10, ⟨99, 130⟩, 5, ⟨99, 250⟩⟩

/-- Sample user for the C9 failing input: at the analysis limit today
(day 100), but the last query happened on day 99. -/
def c9User : User := ⟨"u9", 0, ⟨99, 600⟩, 5, ⟨100, 30⟩⟩

/-- Sample user for the C3 witness: 10 of 10 queries used today (day 100). -/
def atLimitUser : User := ⟨"u3", 10, ⟨100, 10⟩, 0, ⟨100, 10⟩⟩

/-- Sample state for the C3 witness. -/
def c3State : AppState := ⟨[atLimitUser], [], []⟩

/-- An oracle whose model call would succeed (the C3 witness shows it is
never reached). -/
def okOracle : ModelOracle := ⟨.ok ⟨.ok "hello"⟩⟩

/-- Sample item owned by user u1 for the C1 witness. -/
def c1ItemA : Item :=
  ⟨"itemA", "u1", "Laptop", none, 1, none, false, none, false, none, none,
    ⟨1, 0⟩, [], []⟩

/-- Sample item owned by the other user u2 for the C1 witness. -/
def c1ItemB : Item :=
  ⟨"itemB", "u2", "Camera", none, 1, none, false, none, false, none, none,
    ⟨1, 0⟩, [], []⟩

/-- Sample collection owned by the other user u2 for the C1 witness. -/
def c1Col : Collection := ⟨"colA", "u2", "Trip", none, none, 2⟩

/-- Sample model response carrying an own-item token, a foreign-item
token and a foreign-collection token, for the C1 witness. -/
def c1Resp : String := "See (ID:itemB) and (ID:itemA) and (COLLECTION_ID:colA)"

/-- Containment of one string in another, as an explicit decomposition
of the character data. -/
def Substr (needle hay : String) : Prop :=
  ∃ p q : List Char, hay.data = p ++ needle.data ++ q

/-- Item generator for inventory-context witnesses. -/
def mkItem (n : Nat) (arch : Bool) : Item :=
  ⟨"it" ++ toString n, "u5", "Item " ++ toString n, none, 1, none, false, none,
    arch, some "Shelf", none, ⟨50, 0⟩, [], []⟩

/-- Sample inventory with exactly 11 active items and 1 archived item. -/
def c5Items : List Item :=
  (List.range 11).map (fun n => mkItem n false) ++ [mkItem 11 true]

/-- Sample inventory with 2 items, one active and one archived. -/
def c5Small : List Item := [mkItem 0 false, mkItem 1 true]

/-- Sample user for C4: 3 of 10 queries used today (day 100). -/
def c4User : User := ⟨"u4", 3, ⟨100, 10⟩, 0, ⟨100, 10⟩⟩

/-- Sample state for C4. -/
def c4State : AppState := ⟨[c4User], [], []⟩

/-- Oracle whose external call returns a response object whose text()
extraction then throws. -/
def textFailOracle : ModelOracle := ⟨.ok ⟨.error ()⟩⟩

/-- Sample user and state for the C6 witness: a user with no items. -/
def c6User : User := ⟨"u6", 0, ⟨100, 0⟩, 0, ⟨100, 0⟩⟩

/-- Sample state for the C6 witness. -/
def c6State : AppState := ⟨[c6User], [], []⟩

/-- Sample items for the C7 witness: three active items in one
location. -/
def c7Items : List Item := [mkItem 0 false, mkItem 1 false, mkItem 2 false]

/-- Sample parsed model suggestions for the C7 witness. -/
def c7Raws : List GeminiRaw := [⟨"Trio", "a trio", ["Item 0", "Item 1", "Item 2"]⟩]

/-- Candidate for the C8 counterexample: none of its items is in any
collection, and its name matches an existing collection exactly. -/
def c8Suggestion : CollectionSuggestion :=
  ⟨"Kitchen Items", "demo", ["i1", "i2", "i3"], ["a", "b", "c"], "location",
    9 / 10, "", none⟩

/-- Existing collection with the very same name. -/
def c8Existing : ExistingCollection := ⟨"c1", "Kitchen Items", none, 3⟩

/-- Candidate whose items are all already collected (for the C8
witness: it is suppressed by the percentage rule). -/
def c8Collected : CollectionSuggestion :=
  ⟨"Garage Stuff", "demo", ["i1", "i2", "i3"], ["a", "b", "c"], "location",
    9 / 10, "",
    some [⟨"i1", "a", [⟨"c9", "Old"⟩]⟩, ⟨"i2", "b", [⟨"c9", "Old"⟩]⟩,
      ⟨"i3", "c", [⟨"c9", "Old"⟩]⟩]⟩

/-
Theorems.
-/

/-- String containment is reflexive. -/
theorem Substr.refl (s : String) : Substr s s := ⟨[], [], by simp⟩

/-- String containment extends to the right of an append. -/
theorem Substr.appendRight {m a : String} (b : String) (h : Substr m a) :
    Substr m (a ++ b) := by
  rcases h with ⟨p, q, hd⟩
  exact ⟨p, q ++ b.data, by simp [String.data_append, hd]⟩

/-- String containment extends to the left of an append. -/
theorem Substr.appendLeft {m b : String} (a : String) (h : Substr m b) :
    Substr m (a ++ b) := by
  rcases h with ⟨p, q, hd⟩
  exact ⟨a.data ++ p, q, by simp [String.data_append, hd]⟩

/-- Containment in a member of a joined list. -/
theorem Substr.ofJoinMem {x : String} {l : List String} (sep : String)
    (hx : x ∈ l) : Substr x (jsJoin sep l) := by
  induction l with
  | nil => exact absurd hx (List.not_mem_nil x)
  | cons a t ih =>
    cases t with
    | nil =>
      rcases List.mem_singleton.mp hx with rfl
      exact Substr.refl x
    | cons b t2 =>
      rcases List.mem_cons.mp hx with rfl | hx2
      · exact Substr.appendRight _ (Substr.appendRight _ (Substr.refl x))
      · exact Substr.appendLeft _ (ih hx2)

/-- C2: for every stored user and both quota kinds, if the last-used
timestamp is not within the current day then the status check reports
the full limit (10 queries, 5 analyses) as remaining, regardless of the
stored counter value, with no reset time. -/
theorem quotaStatus_lazy_reset (users : List User) (userId : String)
    (now : DateTime) (user : User) (hfind : findUser users userId = some user) :
    (isToday user.aiLastQueryAt now = false →
      getQueryStatus users userId now = .ok ⟨10, 10, none⟩)
    ∧ (isToday user.aiAnalysisLastAt now = false →
      getAnalysisStatus users userId now = .ok ⟨5, 5, none⟩) := by
  constructor <;> intro h <;>
    simp [getQueryStatus, getAnalysisStatus, hfind, effectiveQueries,
      effectiveAnalyses, h, dailyQueryLimit, dailyAnalysisLimit,
      calculateResetTime]

/-- Witness for C2 at a concrete user whose counters sit at the limits
but whose last-used timestamps are on the previous day. -/
theorem quotaStatus_lazy_reset_witness :
    getQueryStatus [staleUser] "u1" ⟨100, 30⟩ = .ok ⟨10, 10, none⟩
    ∧ getAnalysisStatus [staleUser] "u1" ⟨100, 30⟩ = .ok ⟨5, 5, none⟩ :=
  ⟨(quotaStatus_lazy_reset [staleUser] "u1" ⟨100, 30⟩ staleUser rfl).1 rfl,
    (quotaStatus_lazy_reset [staleUser] "u1" ⟨100, 30⟩ staleUser rfl).2 rfl⟩

/-- C9 (failing input): a user at the analysis limit today whose last
query was yesterday. getAnalysisStatus reports remaining = 0 with NO
reset time, because calculateResetTime inspects aiLastQueryAt rather
than aiAnalysisLastAt; the claim requires resetAt = next local midnight
whenever remaining = 0. -/
theorem analysisStatus_missing_resetTime :
    getAnalysisStatus [c9User] "u9" ⟨100, 600⟩ = .ok ⟨0, 5, none⟩
    ∧ nextMidnight ⟨100, 600⟩ = ⟨101, 0⟩ := by
  constructor <;> rfl

/-- C3: for every user whose effective daily query count is at the
limit (stored counter 10 with aiLastQueryAt within today), answerQuestion
fails with a ForbiddenException carrying remaining 0, total 10 and
resetAt equal to the next local midnight, leaves the state unchanged,
and never invokes the external model. -/
theorem answerQuestion_quota_exceeded (st : AppState) (oracle : ModelOracle)
    (userId question : String) (now : DateTime) (user : User)
    (hfind : findUser st.users userId = some user)
    (htoday : isToday user.aiLastQueryAt now = true)
    (hcount : user.aiQueriesToday = 10) :
    answerQuestion st oracle userId question now =
      ⟨.error (.forbidden ⟨0, 10, some (nextMidnight now)⟩), st, false⟩ := by
  simp [answerQuestion, hfind, effectiveQueries, htoday, hcount,
    dailyQueryLimit, calculateResetTime]

/-- Witness for C3 at a concrete state: user u3 at 10/10 today; the
question is rejected, the state is untouched, the model is not called. -/
theorem answerQuestion_quota_exceeded_witness :
    answerQuestion c3State okOracle "u3" "where are my keys" ⟨100, 500⟩ =
      ⟨.error (.forbidden ⟨0, 10, some ⟨101, 0⟩⟩), c3State, false⟩ :=
  answerQuestion_quota_exceeded c3State okOracle "u3" "where are my keys"
    ⟨100, 500⟩ atLimitUser rfl rfl rfl

/-- Every parsed found-item comes from an item row owned by the user. -/
theorem mem_parseFoundItems {dbItems : List Item} {userId resp : String}
    {f : FoundItem} (hf : f ∈ parseFoundItems dbItems userId resp) :
    ∃ it ∈ dbItems, it.ownerId = userId ∧ itemToFound it = f := by
  simp only [parseFoundItems] at hf
  split at hf
  · exact absurd hf (List.not_mem_nil f)
  · rcases List.mem_map.mp hf with ⟨it, hit, rfl⟩
    rcases List.mem_filter.mp hit with ⟨hmem, hp⟩
    rw [Bool.and_eq_true] at hp
    exact ⟨it, hmem, eq_of_beq hp.2, rfl⟩

/-- Every parsed found-collection comes from a collection row owned by
the user. -/
theorem mem_parseFoundCollections {dbCols : List Collection}
    {userId resp : String} {g : FoundCollection}
    (hg : g ∈ parseFoundCollections dbCols userId resp) :
    ∃ c ∈ dbCols, c.ownerId = userId ∧ collectionToFound c = g := by
  simp only [parseFoundCollections] at hg
  split at hg
  · exact absurd hg (List.not_mem_nil g)
  · rcases List.mem_map.mp hg with ⟨c, hc, rfl⟩
    rcases List.mem_filter.mp hc with ⟨hmem, hp⟩
    rw [Bool.and_eq_true] at hp
    exact ⟨c, hmem, eq_of_beq hp.2, rfl⟩

/-- C1: entity extraction is owner-safe. Every element of
parseFoundItems and parseFoundCollections corresponds to a row of the
user's own store, and an identifier that belongs to no row of the user
(in particular one owned by a different user, or by nobody) contributes
no element to the result. -/
theorem extraction_cross_user_safety (dbItems : List Item)
    (dbCols : List Collection) (userId resp : String) :
    (∀ f ∈ parseFoundItems dbItems userId resp,
      ∃ it ∈ dbItems, it.ownerId = userId ∧ it.id = f.id)
    ∧ (∀ i, (∀ it ∈ dbItems, it.id = i → it.ownerId ≠ userId) →
      ∀ f ∈ parseFoundItems dbItems userId resp, f.id ≠ i)
    ∧ (∀ g ∈ parseFoundCollections dbCols userId resp,
      ∃ c ∈ dbCols, c.ownerId = userId ∧ c.id = g.id)
    ∧ (∀ i, (∀ c ∈ dbCols, c.id = i → c.ownerId ≠ userId) →
      ∀ g ∈ parseFoundCollections dbCols userId resp, g.id ≠ i) := by
  refine ⟨?_, ?_, ?_, ?_⟩
  · intro f hf
    rcases mem_parseFoundItems hf with ⟨it, hmem, hown, rfl⟩
    exact ⟨it, hmem, hown, rfl⟩
  · intro i hno f hf hid
    rcases mem_parseFoundItems hf with ⟨it, hmem, hown, rfl⟩
    exact hno it hmem hid hown
  · intro g hg
    rcases mem_parseFoundCollections hg with ⟨c, hmem, hown, rfl⟩
    exact ⟨c, hmem, hown, rfl⟩
  · intro i hno g hg hid
    rcases mem_parseFoundCollections hg with ⟨c, hmem, hown, rfl⟩
    exact hno c hmem hid hown

/-- Witness for C1: a response referencing the user's own item, another
user's item and another user's collection resolves to exactly the own
item; the foreign tokens are silently dropped. -/
theorem extraction_cross_user_safety_witness :
    parseFoundItems [c1ItemA, c1ItemB] "u1" c1Resp = [itemToFound c1ItemA]
    ∧ parseFoundCollections [c1Col] "u1" c1Resp = []
    ∧ (∀ f ∈ parseFoundItems [c1ItemA, c1ItemB] "u1" c1Resp, f.id ≠ "itemB") :=
  ⟨by decide, by decide,
    (extraction_cross_user_safety [c1ItemA, c1ItemB] [c1Col] "u1" c1Resp).2.1
      "itemB" (by decide)⟩

/-- Containment only depends on the character data. -/
theorem Substr.congr {m a b : String} (h : a.data = b.data)
    (hs : Substr m b) : Substr m a := by
  rcases hs with ⟨p, q, e⟩
  exact ⟨p, q, h.trans e⟩

/-- Containment in the last three segments of a left-nested append
chain. -/
theorem Substr.tailOfThree {m : String} {x s t u : String}
    (h : Substr m ((s ++ t) ++ u)) : Substr m (((x ++ s) ++ t) ++ u) := by
  apply Substr.congr (b := x ++ ((s ++ t) ++ u))
  · simp [String.data_append, List.append_assoc]
  · exact Substr.appendLeft x h

/-- C5: when an inventory has exactly 11 active items, the context is
the summary form: the first 8 active items rendered in full detail (a
block of exactly 8 formatted lines) followed by the literal remainder
notice counting the other 3; when it has at most 10 active items, every
item, active or archived, appears as a fully detailed line. -/
theorem inventoryContext_bounded (userId : String) (items : List Item)
    (today : DateTime) :
    ((items.filter (fun i => !i.archived)).length = 11 →
      ((items.filter (fun i => !i.archived)).take 8).length = 8
      ∧ generateInventoryContext userId items today =
        "USER " ++ userId ++ " INVENTORY SUMMARY:\nTotal: " ++ toString (11 : Nat)
          ++ " active items, " ++ toString (items.filter (fun i => i.archived)).length
          ++ " archived\n\nSAMPLE ACTIVE ITEMS (showing first 8 of "
          ++ toString (11 : Nat) ++ "):\n"
          ++ jsJoin "\n"
              (((items.filter (fun i => !i.archived)).take 8).map (formatItem today))
          ++ "\n\n... and " ++ toString (3 : Nat)
          ++ " more items not shown in this sample."
          ++ (if 0 < (items.filter (fun i => i.archived)).length then
              "\n\nARCHIVED ITEMS ("
                ++ toString (items.filter (fun i => i.archived)).length
                ++ "): Available but not shown in detail."
            else "")
      ∧ Substr "... and 3 more items not shown in this sample."
          (generateInventoryContext userId items today))
    ∧ ((items.filter (fun i => !i.archived)).length ≤ 10 →
      ∀ it ∈ items,
        Substr (formatItem today it) (generateInventoryContext userId items today)) := by
  constructor
  · intro h
    have hne : items.isEmpty = false := by
      cases items with
      | nil => simp at h
      | cons a t => rfl
    have h8 : ((items.filter (fun i => !i.archived)).take 8).length = 8 := by
      rw [List.length_take, h]
      decide
    have heq : generateInventoryContext userId items today =
        "USER " ++ userId ++ " INVENTORY SUMMARY:\nTotal: " ++ toString (11 : Nat)
          ++ " active items, " ++ toString (items.filter (fun i => i.archived)).length
          ++ " archived\n\nSAMPLE ACTIVE ITEMS (showing first 8 of "
          ++ toString (11 : Nat) ++ "):\n"
          ++ jsJoin "\n"
              (((items.filter (fun i => !i.archived)).take 8).map (formatItem today))
          ++ "\n\n... and " ++ toString (3 : Nat)
          ++ " more items not shown in this sample."
          ++ (if 0 < (items.filter (fun i => i.archived)).length then
              "\n\nARCHIVED ITEMS ("
                ++ toString (items.filter (fun i => i.archived)).length
                ++ "): Available but not shown in detail."
            else "") := by
      simp [generateInventoryContext, hne, h]
    refine ⟨h8, heq, ?_⟩
    rw [heq]
    apply Substr.appendRight
    apply Substr.tailOfThree
    exact ⟨"\n\n".data, [], by decide⟩
  · intro hle it hmem
    have hne : items.isEmpty = false := by
      cases items with
      | nil => exact absurd hmem (List.not_mem_nil it)
      | cons a t => rfl
    have hnot : ¬(10 < (items.filter (fun i => !i.archived)).length) := by omega
    have heq : generateInventoryContext userId items today =
        "USER " ++ userId ++ " INVENTORY:\n\n"
          ++ (if 0 < (items.filter (fun i => !i.archived)).length then
              "ACTIVE ITEMS (" ++ toString (items.filter (fun i => !i.archived)).length
                ++ "):\n"
                ++ jsJoin "\n"
                    ((items.filter (fun i => !i.archived)).map (formatItem today))
                ++ "\n\n"
            else "")
          ++ (if 0 < (items.filter (fun i => i.archived)).length then
              "ARCHIVED ITEMS (" ++ toString (items.filter (fun i => i.archived)).length
                ++ "):\n"
                ++ jsJoin "\n"
                    ((items.filter (fun i => i.archived)).map (formatItem today))
            else "") := by
      simp [generateInventoryContext, hne, hnot]
    rw [heq]
    by_cases harch : it.archived
    · have hmemf : it ∈ items.filter (fun i => i.archived) :=
        List.mem_filter.mpr ⟨hmem, by simp [harch]⟩
      have hpos : 0 < (items.filter (fun i => i.archived)).length :=
        List.length_pos.mpr (List.ne_nil_of_mem hmemf)
      apply Substr.appendLeft
      rw [if_pos hpos]
      apply Substr.appendLeft
      exact Substr.ofJoinMem _ (List.mem_map_of_mem (formatItem today) hmemf)
    · have hmemf : it ∈ items.filter (fun i => !i.archived) :=
        List.mem_filter.mpr ⟨hmem, by simp [harch]⟩
      have hpos : 0 < (items.filter (fun i => !i.archived)).length :=
        List.length_pos.mpr (List.ne_nil_of_mem hmemf)
      apply Substr.appendRight
      apply Substr.appendLeft
      rw [if_pos hpos]
      apply Substr.appendRight
      apply Substr.appendLeft
      exact Substr.ofJoinMem _ (List.mem_map_of_mem (formatItem today) hmemf)

/-- Witness for C5 at concrete inventories: one with 11 active items
(the remainder notice appears, the detailed sample has 8 lines) and one
with 2 items (both appear as detailed lines). -/
theorem inventoryContext_bounded_witness :
    (((c5Items.filter (fun i => !i.archived)).take 8).length = 8
      ∧ Substr "... and 3 more items not shown in this sample."
          (generateInventoryContext "u5" c5Items ⟨60, 0⟩))
    ∧ (∀ it ∈ c5Small,
        Substr (formatItem ⟨60, 0⟩ it) (generateInventoryContext "u5" c5Small ⟨60, 0⟩)) :=
  ⟨⟨((inventoryContext_bounded "u5" c5Items ⟨60, 0⟩).1 (by decide)).1,
      ((inventoryContext_bounded "u5" c5Items ⟨60, 0⟩).1 (by decide)).2.2⟩,
    (inventoryContext_bounded "u5" c5Small ⟨60, 0⟩).2 (by decide)⟩

/-- Counterexample to C4 as stated: with 3/10 queries used, the model
call succeeds but the response-text extraction fails; answerQuestion
fails, yet the stored query counter has moved from 3 to 4 (the source
updates the counter after generateContent but before
result.response.text()). -/
theorem answerQuestion_increment_before_text_extraction :
    (answerQuestion c4State textFailOracle "u4" "q" ⟨100, 500⟩).result
        = .error .internal
    ∧ (findUser (answerQuestion c4State textFailOracle "u4" "q" ⟨100, 500⟩).state.users
          "u4").map (fun u => u.aiQueriesToday) = some 4
    ∧ (findUser c4State.users "u4").map (fun u => u.aiQueriesToday) = some 3 := by
  refine ⟨rfl, rfl, rfl⟩

/-- A find? after an id-preserving conditional map update returns the
updated row. -/
theorem find?_map_update (users : List User) (userId : String) (user : User)
    (f : User → User) (hid : ∀ v, (f v).id = v.id)
    (hfind : users.find? (fun u => u.id == userId) = some user) :
    (users.map (fun u => if u.id == userId then f u else u)).find?
      (fun u => u.id == userId) = some (f user) := by
  induction users with
  | nil => simp at hfind
  | cons a t ih =>
    by_cases ha : (a.id == userId) = true
    · rw [List.find?_cons_of_pos t ha] at hfind
      rcases Option.some_inj.mp hfind with rfl
      simp only [List.map_cons, if_pos ha]
      exact List.find?_cons_of_pos _ (by rw [hid]; exact ha)
    · rw [List.find?_cons_of_neg t ha] at hfind
      rw [Bool.not_eq_true] at ha
      simp only [List.map_cons, ha, Bool.false_eq_true, if_false]
      rw [List.find?_cons, ha]
      exact ih hfind

/-- Outcome split for analyzeImage: either it fails and the state is
untouched, or it succeeds, the quota gate was passed, and the state is
the one-step analysis-quota update. -/
theorem analyzeImage_cases (st : AppState) (o : ModelOracle)
    (parse : String → Except Unit Json) (userId : String) (now : DateTime)
    (user : User) (hfind : findUser st.users userId = some user) :
    ((analyzeImage st o parse userId now).result.isOk = false
      ∧ (analyzeImage st o parse userId now).state = st)
    ∨ ((analyzeImage st o parse userId now).result.isOk = true
      ∧ effectiveAnalyses user now < dailyAnalysisLimit
      ∧ (analyzeImage st o parse userId now).state
          = updateUserRow st userId (fun u =>
              { u with aiAnalysesToday := effectiveAnalyses user now + 1,
                       aiAnalysisLastAt := now })) := by
  unfold analyzeImage
  rw [hfind]
  dsimp only
  by_cases hgate : dailyAnalysisLimit ≤ effectiveAnalyses user now
  · left
    rw [if_pos hgate]
    exact ⟨rfl, rfl⟩
  · rw [if_neg hgate]
    cases hg : o.genResult with
    | error e => exact Or.inl ⟨rfl, rfl⟩
    | ok resp =>
      dsimp only
      cases ht : resp.text with
      | error e => exact Or.inl ⟨rfl, rfl⟩
      | ok t =>
        dsimp only
        cases hp : parse t with
        | error e => exact Or.inl ⟨rfl, rfl⟩
        | ok j =>
          dsimp only
          by_cases hv : (!jsTruthy (Json.getField j "name")
              || !jsIsArray (Json.getField j "tags")) = true
          · left
            rw [if_pos hv]
            exact ⟨rfl, rfl⟩
          · right
            rw [if_neg hv]
            exact ⟨rfl, by omega, rfl⟩

/-- C4 (amended): quota increments happen on the success of the
external call, not of the whole operation. For answerQuestion the
counter and timestamp are unchanged when the model call throws, but as
soon as the call returns they are advanced by exactly one, even if the
subsequent response-text extraction fails. For analyzeImage the claim
holds as stated: any failure after the gate leaves the state unchanged
and a success advances the analysis counter by exactly one. -/
theorem quota_increment_on_call_success (st : AppState) (o : ModelOracle)
    (parse : String → Except Unit Json) (userId question : String)
    (now : DateTime) (user : User)
    (hfind : findUser st.users userId = some user) :
    (o.genResult = .error () →
      (answerQuestion st o userId question now).state = st)
    ∧ (∀ resp, o.genResult = .ok resp →
        effectiveQueries user now < dailyQueryLimit →
        (findUser (answerQuestion st o userId question now).state.users userId).map
            (fun u => u.aiQueriesToday) = some (effectiveQueries user now + 1)
        ∧ (findUser (answerQuestion st o userId question now).state.users userId).map
            (fun u => u.aiLastQueryAt) = some now)
    ∧ ((analyzeImage st o parse userId now).result.isOk = false →
        (analyzeImage st o parse userId now).state = st)
    ∧ ((analyzeImage st o parse userId now).result.isOk = true →
        (findUser (analyzeImage st o parse userId now).state.users userId).map
            (fun u => u.aiAnalysesToday) = some (effectiveAnalyses user now + 1)
        ∧ (findUser (analyzeImage st o parse userId now).state.users userId).map
            (fun u => u.aiAnalysisLastAt) = some now) := by
  refine ⟨?_, ?_, ?_, ?_⟩
  · intro hgen
    unfold answerQuestion
    rw [hfind]
    dsimp only
    rw [hgen]
    dsimp only
    split
    · rfl
    · rfl
  · intro resp hgen hlt
    have hstate : (answerQuestion st o userId question now).state
        = updateUserRow st userId (fun u =>
            { u with aiQueriesToday := effectiveQueries user now + 1,
                     aiLastQueryAt := now }) := by
      unfold answerQuestion
      rw [hfind]
      dsimp only
      rw [if_neg (by omega), hgen]
      dsimp only
      cases ht : resp.text with
      | error e => rfl
      | ok t =>
        dsimp only
        split
        · rfl
        · rfl
    rw [hstate]
    unfold updateUserRow findUser
    dsimp only
    constructor
    · rw [find?_map_update st.users userId user
        (fun u => { u with aiQueriesToday := effectiveQueries user now + 1,
                           aiLastQueryAt := now }) (fun v => rfl) hfind]
      rfl
    · rw [find?_map_update st.users userId user
        (fun u => { u with aiQueriesToday := effectiveQueries user now + 1,
                           aiLastQueryAt := now }) (fun v => rfl) hfind]
      rfl
  · intro hfail
    rcases analyzeImage_cases st o parse userId now user hfind with h | h
    · exact h.2
    · rw [h.1] at hfail
      cases hfail
  · intro hok
    rcases analyzeImage_cases st o parse userId now user hfind with h | h
    · rw [h.1] at hok
      cases hok
    · rw [h.2.2]
      unfold updateUserRow findUser
      dsimp only
      constructor
      · rw [find?_map_update st.users userId user
          (fun u => { u with aiAnalysesToday := effectiveAnalyses user now + 1,
                             aiAnalysisLastAt := now }) (fun v => rfl) hfind]
        rfl
      · rw [find?_map_update st.users userId user
          (fun u => { u with aiAnalysesToday := effectiveAnalyses user now + 1,
                             aiAnalysisLastAt := now }) (fun v => rfl) hfind]
        rfl

/-- Witness for the amended C4: at state c4State (3/10 used today) a
successful call with failing text extraction advances the counter to 4,
and an analyzeImage run whose parse fails leaves the state untouched. -/
theorem quota_increment_on_call_success_witness :
    ((answerQuestion c4State textFailOracle "u4" "q" ⟨100, 500⟩).state.users.find?
        (fun u => u.id == "u4")).map (fun u => u.aiQueriesToday) = some 4
    ∧ (analyzeImage c4State textFailOracle (fun s => .error ()) "u4"
        ⟨100, 500⟩).state = c4State :=
  ⟨((quota_increment_on_call_success c4State textFailOracle (fun s => .error ())
      "u4" "q" ⟨100, 500⟩ c4User rfl).2.1 ⟨.error ()⟩ rfl (by decide)).1,
    (quota_increment_on_call_success c4State textFailOracle (fun s => .error ())
      "u4" "q" ⟨100, 500⟩ c4User rfl).2.2.1 rfl⟩

/-- Filtering by a conjunction yields at most as many elements as
filtering by one conjunct. -/
theorem length_filter_and_le {α : Type _} (p q : α → Bool) (l : List α) :
    (l.filter (fun a => p a && q a)).length ≤ (l.filter p).length := by
  induction l with
  | nil => simp
  | cons a t ih =>
    by_cases hp : p a = true <;> by_cases hq : q a = true <;>
      simp [hp, hq] <;> omega

/-- C6: for a user whose total owned item count is fewer than 3 (in
particular at most the active count the code fetches), the suggestion
endpoint returns the empty suggestion list with the uncollected count,
leaves the state unchanged and never calls the external model; with 0
items the response is exactly suggestions = [] and
totalUncollectedItems = 0. -/
theorem suggestions_min_inventory_gate (st : AppState)
    (o : Except Unit (List GeminiRaw)) (userId : String) (now : DateTime)
    (limit : Nat) (user : User)
    (hfind : findUser st.users userId = some user)
    (hquota : effectiveQueries user now < dailyQueryLimit) :
    ((st.items.filter (fun i => i.ownerId == userId)).length < 3 →
      generateCollectionSuggestions st o userId now limit =
        ⟨.ok ⟨[], ((getAllUserItems st userId).filter
            (fun i => i.collectionsOf.isEmpty)).length⟩, st, false⟩)
    ∧ ((st.items.filter (fun i => i.ownerId == userId)).length = 0 →
      generateCollectionSuggestions st o userId now limit =
        ⟨.ok ⟨[], 0⟩, st, false⟩) := by
  have hallLen : (getAllUserItems st userId).length
      = (st.items.filter (fun i => i.ownerId == userId && !i.archived)).length :=
    (List.perm_insertionSort _ _).length_eq
  have hge : (st.items.filter (fun i => i.ownerId == userId && !i.archived)).length
      ≤ (st.items.filter (fun i => i.ownerId == userId)).length :=
    length_filter_and_le (fun i => i.ownerId == userId) (fun i => !i.archived)
      st.items
  have gate : (st.items.filter (fun i => i.ownerId == userId)).length < 3 →
      generateCollectionSuggestions st o userId now limit =
        ⟨.ok ⟨[], ((getAllUserItems st userId).filter
            (fun i => i.collectionsOf.isEmpty)).length⟩, st, false⟩ := by
    intro h3
    unfold generateCollectionSuggestions
    rw [hfind]
    dsimp only
    rw [if_neg (by omega), if_pos (by omega)]
  refine ⟨gate, fun h0 => ?_⟩
  rw [gate (by omega)]
  have hz : ((getAllUserItems st userId).filter
      (fun i => i.collectionsOf.isEmpty)).length = 0 := by
    have hle := List.length_filter_le (fun i => i.collectionsOf.isEmpty)
      (getAllUserItems st userId)
    omega
  rw [hz]

/-- Witness for C6: a user with no items receives suggestions = [] and
totalUncollectedItems = 0 without any external model call and with the
state untouched. -/
theorem suggestions_min_inventory_gate_witness :
    generateCollectionSuggestions c6State (.ok []) "u6" ⟨100, 60⟩ 5 =
      ⟨.ok ⟨[], 0⟩, c6State, false⟩ :=
  (suggestions_min_inventory_gate c6State (.ok []) "u6" ⟨100, 60⟩ 5 c6User rfl
    (by decide)).2 (by decide)

/-- The collection-awareness annotation keeps the number of item ids
(Array.prototype.sort permutes in place). -/
theorem addCollectionAwareness_itemIds_length (items : List Item)
    (s : BaseSuggestion) :
    (addCollectionAwareness items s).itemIds.length = s.itemIds.length :=
  (List.perm_insertionSort _ _).length_eq

/-- C7: no suggestion generator, rule-based or model-backed, ever emits
a candidate with fewer than 3 items. -/
theorem suggestion_generators_min_size (now : DateTime) (items : List Item)
    (existingCollections : List ExistingCollection)
    (o : Except Unit (List GeminiRaw)) :
    (∀ s ∈ groupByLocation items existingCollections, 3 ≤ s.itemIds.length)
    ∧ (∀ s ∈ groupByPrice items existingCollections, 3 ≤ s.itemIds.length)
    ∧ (∀ s ∈ groupByPattern now items existingCollections, 3 ≤ s.itemIds.length)
    ∧ (∀ s ∈ getGeminiSuggestions items existingCollections o,
        3 ≤ s.itemIds.length) := by
  refine ⟨?_, ?_, ?_, ?_⟩
  · intro s hs
    simp only [groupByLocation] at hs
    rcases List.mem_map.mp hs with ⟨e, he, rfl⟩
    rcases List.mem_filter.mp he with ⟨hmem, hcond⟩
    rw [addCollectionAwareness_itemIds_length]
    simp only [List.length_map]
    by_cases hlt : e.2.length < 3
    · rw [if_pos hlt] at hcond
      cases hcond
    · omega
  · intro s hs
    simp only [groupByPrice] at hs
    rcases List.mem_append.mp hs with h | h
    · split at h
      · rcases List.mem_append.mp h with h2 | h2 <;>
          · split at h2
            · rcases List.mem_singleton.mp h2 with rfl
              rw [addCollectionAwareness_itemIds_length]
              simp only [List.length_map]
              omega
            · exact absurd h2 (List.not_mem_nil s)
      · exact absurd h (List.not_mem_nil s)
    · split at h
      · rename_i hcond
        rw [Bool.and_eq_true] at hcond
        have h3 := of_decide_eq_true hcond.2
        rcases List.mem_singleton.mp h with rfl
        rw [addCollectionAwareness_itemIds_length]
        simp only [List.length_map]
        omega
      · exact absurd h (List.not_mem_nil s)
  · intro s hs
    simp only [groupByPattern] at hs
    rcases List.mem_append.mp hs with h | h <;>
      · split at h
        · split at h
          · rcases List.mem_singleton.mp h with rfl
            rw [addCollectionAwareness_itemIds_length]
            simp only [List.length_map]
            omega
          · exact absurd h (List.not_mem_nil s)
        · exact absurd h (List.not_mem_nil s)
  · intro s hs
    cases o with
    | error e => exact absurd hs (List.not_mem_nil s)
    | ok raws =>
      simp only [getGeminiSuggestions] at hs
      rcases List.mem_filter.mp hs with ⟨hmem, hcond⟩
      exact of_decide_eq_true hcond

/-- Witness for C7: at a concrete three-item inventory every candidate
of every generator has at least 3 items. -/
theorem suggestion_generators_min_size_witness :
    ((groupByLocation c7Items []).all (fun s => decide (3 ≤ s.itemIds.length))
        = true)
    ∧ ((groupByPrice c7Items []).all (fun s => decide (3 ≤ s.itemIds.length))
        = true)
    ∧ ((groupByPattern ⟨51, 0⟩ c7Items []).all
        (fun s => decide (3 ≤ s.itemIds.length)) = true)
    ∧ ((getGeminiSuggestions c7Items [] (.ok c7Raws)).all
        (fun s => decide (3 ≤ s.itemIds.length)) = true) := by
  have h := suggestion_generators_min_size ⟨51, 0⟩ c7Items [] (.ok c7Raws)
  refine ⟨?_, ?_, ?_, ?_⟩
  · exact List.all_eq_true.mpr (fun s hs => decide_eq_true (h.1 s hs))
  · exact List.all_eq_true.mpr (fun s hs => decide_eq_true (h.2.1 s hs))
  · exact List.all_eq_true.mpr (fun s hs => decide_eq_true (h.2.2.1 s hs))
  · exact List.all_eq_true.mpr (fun s hs => decide_eq_true (h.2.2.2 s hs))

instance : IsTrans CollectionSuggestion rankRel := ⟨by
  intro a b c hab hbc
  rcases hab with h1 | ⟨h1e, h1c⟩ <;> rcases hbc with h2 | ⟨h2e, h2c⟩
  · exact Or.inl (lt_trans h2 h1)
  · exact Or.inl (by rw [← h2e]; exact h1)
  · exact Or.inl (by rw [h1e]; exact h2)
  · exact Or.inr ⟨h1e.trans h2e, le_trans h2c h1c⟩⟩

instance : IsTotal CollectionSuggestion rankRel := ⟨by
  intro a b
  rcases lt_trichotomy a.confidence b.confidence with h | h | h
  · exact Or.inr (Or.inl h)
  · rcases le_total b.itemIds.length a.itemIds.length with hc | hc
    · exact Or.inl (Or.inr ⟨h, hc⟩)
    · exact Or.inr (Or.inr ⟨h.symm, hc⟩)
  · exact Or.inl (Or.inl h)⟩

/-- Counterexample to C8 as stated: a candidate with no
already-collected items whose name is 100 percent similar (hence at
least 70 percent similar) to an existing collection name is NOT
suppressed — the early return on a missing annotation skips the name
similarity check entirely — and it survives the ranking stage. -/
theorem suppression_skipped_without_collected_items :
    calculateCollectionSimilarity c8Suggestion.name c8Existing.name = 1
    ∧ ((7 : Rat) / 10 ≤ 1)
    ∧ shouldSuppressSuggestion c8Suggestion [c8Existing] = false
    ∧ rankingStage [c8Suggestion] [c8Existing] 5 = [c8Suggestion] := by
  refine ⟨by with_unfolding_all decide, by with_unfolding_all decide,
    by with_unfolding_all decide, by with_unfolding_all decide⟩

/-- C8 (amended): the ranking stage suppresses a candidate exactly when
it carries an already-collected annotation (at least one item already in
another collection) AND either strictly more than 80 percent of its
items are already collected or some existing collection name is
strictly more than 70 percent word-overlap-similar; the surviving
candidates are returned sorted by confidence descending with ties by
item count descending, truncated to the top min(limit, 5). -/
theorem ranking_stage_characterization (suggestions : List CollectionSuggestion)
    (existingCollections : List ExistingCollection) (limit : Nat) :
    (∀ s : CollectionSuggestion,
      shouldSuppressSuggestion s existingCollections = true ↔
        (∃ already, s.itemsAlreadyInCollections = some already
          ∧ ((already.length : Rat) / (s.itemIds.length : Rat) > 4 / 5
            ∨ ∃ c ∈ existingCollections,
                calculateCollectionSimilarity s.name c.name > 7 / 10)))
    ∧ List.Pairwise rankRel (rankingStage suggestions existingCollections limit)
    ∧ (rankingStage suggestions existingCollections limit).length
        = min limit (min 5 (suggestions.filter
            (fun s => !shouldSuppressSuggestion s existingCollections)).length)
    ∧ (∀ s ∈ rankingStage suggestions existingCollections limit,
        s ∈ suggestions
          ∧ shouldSuppressSuggestion s existingCollections = false) := by
  refine ⟨?_, ?_, ?_, ?_⟩
  · intro s
    unfold shouldSuppressSuggestion
    cases hann : s.itemsAlreadyInCollections with
    | none => simp
    | some already =>
      simp [List.any_eq_true, decide_eq_true_eq]
  · have hs : List.Sorted rankRel (List.insertionSort rankRel
        (suggestions.filter
          (fun s => !shouldSuppressSuggestion s existingCollections))) :=
      List.sorted_insertionSort rankRel _
    exact List.Pairwise.sublist
      ((List.take_sublist _ _).trans (List.take_sublist _ _)) hs
  · unfold rankingStage rankSuggestions
    rw [List.length_take, List.length_take,
      (List.perm_insertionSort rankRel _).length_eq]
  · intro s hsmem
    have h1 : s ∈ List.insertionSort rankRel (suggestions.filter
        (fun s => !shouldSuppressSuggestion s existingCollections)) :=
      List.take_subset _ _ (List.take_subset _ _ hsmem)
    have h2 : s ∈ suggestions.filter
        (fun s => !shouldSuppressSuggestion s existingCollections) :=
      (List.perm_insertionSort rankRel _).mem_iff.mp h1
    rcases List.mem_filter.mp h2 with ⟨hmem, hcond⟩
    exact ⟨hmem, by simpa using hcond⟩

/-- Witness for the amended C8 at concrete inputs: the fully-collected
candidate is suppressed, and of two candidates exactly one survives,
sorted output. -/
theorem ranking_stage_characterization_witness :
    (rankingStage [c8Suggestion, c8Collected] [c8Existing] 5).length = 1
    ∧ List.Pairwise rankRel (rankingStage [c8Suggestion, c8Collected]
        [c8Existing] 5)
    ∧ shouldSuppressSuggestion c8Collected [c8Existing] = true := by
  have h := ranking_stage_characterization [c8Suggestion, c8Collected]
    [c8Existing] 5
  refine ⟨?_, h.2.1, ?_⟩
  · rw [h.2.2.1]
    with_unfolding_all decide
  · exact (h.1 c8Collected).mpr ⟨_, rfl, Or.inl (by with_unfolding_all decide)⟩

/-- Valid characters avoid the surrogate range and the values beyond
the last code point. -/
theorem char_valid_bounds (c : Char) :
    c.toNat < 55296 ∨ (57343 < c.toNat ∧ c.toNat < 1114112) := c.valid

/-- Expansion of the single-unit case. -/
theorem charCodeUnits_small (c : Char) (h : c.toNat < 65536) :
    charCodeUnits c = [c.toNat] := by
  simp [charCodeUnits, h]

/-- Expansion of the surrogate-pair case. -/
theorem charCodeUnits_big (c : Char) (h : ¬c.toNat < 65536) :
    charCodeUnits c = [55296 + (c.toNat - 65536) / 1024,
      56320 + (c.toNat - 65536) % 1024] := by
  simp [charCodeUnits, h]

/-- A character always contributes at least one UTF-16 code unit. -/
theorem charCodeUnits_ne_nil (c : Char) : charCodeUnits c ≠ [] := by
  by_cases h : c.toNat < 65536
  · rw [charCodeUnits_small c h]
    simp
  · rw [charCodeUnits_big c h]
    simp

/-- Two characters with the same leading UTF-16 units (followed by
arbitrary unit tails) are equal, and the tails coincide: the surrogate
scheme is prefix-free and valid code points are never surrogates. -/
theorem charCodeUnits_head_inj (c1 c2 : Char) (r1 r2 : List Nat)
    (h : charCodeUnits c1 ++ r1 = charCodeUnits c2 ++ r2) :
    c1 = c2 ∧ r1 = r2 := by
  have hv1 := char_valid_bounds c1
  have hv2 := char_valid_bounds c2
  by_cases h1 : c1.toNat < 65536 <;> by_cases h2 : c2.toNat < 65536
  · rw [charCodeUnits_small c1 h1, charCodeUnits_small c2 h2] at h
    simp only [List.cons_append, List.nil_append] at h
    rcases List.cons.inj h with ⟨hv, hr⟩
    exact ⟨Char.ext (UInt32.ext hv), hr⟩
  · rw [charCodeUnits_small c1 h1, charCodeUnits_big c2 h2] at h
    simp only [List.cons_append, List.nil_append] at h
    rcases List.cons.inj h with ⟨hv, hr⟩
    exfalso
    simp only [Char.toNat] at hv hv1 hv2 h1 h2
    omega
  · rw [charCodeUnits_big c1 h1, charCodeUnits_small c2 h2] at h
    simp only [List.cons_append, List.nil_append] at h
    rcases List.cons.inj h with ⟨hv, hr⟩
    exfalso
    simp only [Char.toNat] at hv hv1 hv2 h1 h2
    omega
  · rw [charCodeUnits_big c1 h1, charCodeUnits_big c2 h2] at h
    simp only [List.cons_append, List.nil_append] at h
    rcases List.cons.inj h with ⟨hhi, h2t⟩
    rcases List.cons.inj h2t with ⟨hlo, hr⟩
    refine ⟨Char.ext (UInt32.ext ?_), hr⟩
    simp only [Char.toNat] at hhi hlo hv1 hv2 h1 h2
    omega

/-- The UTF-16 encoding of a character list is injective. -/
theorem utf16Units_inj : ∀ (l1 l2 : List Char),
    utf16Units l1 = utf16Units l2 → l1 = l2
  | [], [], _ => rfl
  | [], c :: cs, h => by
    exfalso
    have : charCodeUnits c ++ utf16Units cs ≠ [] := by
      cases hu : charCodeUnits c with
      | nil => exact absurd hu (charCodeUnits_ne_nil c)
      | cons a t => simp
    exact this h.symm
  | c :: cs, [], h => by
    exfalso
    have : charCodeUnits c ++ utf16Units cs ≠ [] := by
      cases hu : charCodeUnits c with
      | nil => exact absurd hu (charCodeUnits_ne_nil c)
      | cons a t => simp
    exact this h
  | c1 :: t1, c2 :: t2, h => by
    rcases charCodeUnits_head_inj c1 c2 (utf16Units t1) (utf16Units t2) h with
      ⟨hc, ht⟩
    rw [hc, utf16Units_inj t1 t2 ht]

/-- Totality of the UTF-16 lexicographic comparison. -/
theorem unitsLe_total : ∀ a b : List Nat, unitsLe a b = true ∨ unitsLe b a = true
  | [], _ => Or.inl rfl
  | _ :: _, [] => Or.inr rfl
  | x :: xs, y :: ys => by
    simp only [unitsLe]
    by_cases hxy : x < y
    · left
      simp [hxy]
    · by_cases hyx : y < x
      · right
        simp [hyx]
      · have hx : x = y := by omega
        subst hx
        simp only [lt_irrefl, if_false, beq_self_eq_true, if_true, ite_false,
          ite_true]
        exact unitsLe_total xs ys

/-- Transitivity of the UTF-16 lexicographic comparison. -/
theorem unitsLe_trans : ∀ a b c : List Nat,
    unitsLe a b = true → unitsLe b c = true → unitsLe a c = true
  | [], _, _, _, _ => rfl
  | x :: xs, [], c, hab, _ => by cases hab
  | x :: xs, y :: ys, [], _, hbc => by cases hbc
  | x :: xs, y :: ys, z :: zs, hab, hbc => by
    simp only [unitsLe] at hab hbc ⊢
    by_cases hxy : x < y <;> by_cases hyz : y < z
    · simp [show x < z by omega]
    · simp only [hyz, if_false, ite_false] at hbc
      by_cases hyz2 : (y == z) = true
      · have : y = z := eq_of_beq hyz2
        simp [show x < z by omega]
      · simp [hyz2] at hbc
    · simp only [hxy, if_false, ite_false] at hab
      by_cases hxy2 : (x == y) = true
      · have : x = y := eq_of_beq hxy2
        simp [show x < z by omega]
      · simp [hxy2] at hab
    · simp only [hxy, hyz, if_false, ite_false] at hab hbc
      by_cases hxy2 : (x == y) = true
      · by_cases hyz2 : (y == z) = true
        · have hexy : x = y := eq_of_beq hxy2
          have heyz : y = z := eq_of_beq hyz2
          simp only [hxy2, if_true, ite_true] at hab
          simp only [hyz2, if_true, ite_true] at hbc
          subst hexy
          subst heyz
          simp only [lt_irrefl, if_false, beq_self_eq_true, if_true, ite_false,
            ite_true]
          exact unitsLe_trans xs ys zs hab hbc
        · simp [hyz2] at hbc
      · simp [hxy2] at hab

/-- Antisymmetry of the UTF-16 lexicographic comparison. -/
theorem unitsLe_antisymm : ∀ a b : List Nat,
    unitsLe a b = true → unitsLe b a = true → a = b
  | [], [], _, _ => rfl
  | [], _ :: _, _, hba => by cases hba
  | _ :: _, [], hab, _ => by cases hab
  | x :: xs, y :: ys, hab, hba => by
    simp only [unitsLe] at hab hba
    by_cases hxy : x < y
    · by_cases hyx : y < x
      · omega
      · simp only [hyx, if_false, ite_false] at hba
        by_cases hyx2 : (y == x) = true
        · have : y = x := eq_of_beq hyx2
          omega
        · simp [hyx2] at hba
    · simp only [hxy, if_false, ite_false] at hab
      by_cases hxy2 : (x == y) = true
      · have hexy : x = y := eq_of_beq hxy2
        subst hexy
        simp only [lt_irrefl, if_false, beq_self_eq_true, if_true, ite_false,
          ite_true] at hab hba
        rw [unitsLe_antisymm xs ys hab hba]
      · simp [hxy2] at hab

instance : IsTotal String jsStrLe :=
  ⟨fun a b => unitsLe_total (utf16Units a.data) (utf16Units b.data)⟩

instance : IsTrans String jsStrLe :=
  ⟨fun a b c => unitsLe_trans (utf16Units a.data) (utf16Units b.data)
    (utf16Units c.data)⟩

instance : IsAntisymm String jsStrLe :=
  ⟨fun a b h1 h2 =>
    String.ext (utf16Units_inj a.data b.data
      (unitsLe_antisymm (utf16Units a.data) (utf16Units b.data) h1 h2))⟩

/-- Counterexample to C10 as stated: the identifier is a truncated
32-bit polynomial hash, so distinct inputs can collide; the names Aa
and BB (with equal id sets and origins) yield the very same identifier,
refuting that changing the name always changes the identifier. -/
theorem suggestionId_hash_collision :
    generateSuggestionId "Aa" [] "x" = generateSuggestionId "BB" [] "x"
    ∧ ("Aa" : String) ≠ "BB" := by
  refine ⟨by decide, by decide⟩

/-- C10 (amended): the suggestion id generator is deterministic and
order-insensitive — two calls with the same name, the same multiset of
item ids (in any order) and the same origin yield the same identifier —
but changing one of the three inputs does not always change the
identifier (hash collisions exist, see the counterexample). -/
theorem suggestionId_deterministic_perm_invariant (name : String)
    (ids1 ids2 : List String) (origin : String) (h : ids1.Perm ids2) :
    generateSuggestionId name ids1 origin
      = generateSuggestionId name ids2 origin := by
  have hsort : jsSortStrings ids1 = jsSortStrings ids2 :=
    List.eq_of_perm_of_sorted
      (((List.perm_insertionSort jsStrLe ids1).trans h).trans
        (List.perm_insertionSort jsStrLe ids2).symm)
      (List.sorted_insertionSort jsStrLe ids1)
      (List.sorted_insertionSort jsStrLe ids2)
  unfold generateSuggestionId
  rw [hsort]

/-- Witness for the amended C10: swapping two item ids leaves the
identifier unchanged. -/
theorem suggestionId_deterministic_perm_invariant_witness :
    generateSuggestionId "Books" ["b2", "a1"] "location"
      = generateSuggestionId "Books" ["a1", "b2"] "location" :=
  suggestionId_deterministic_perm_invariant "Books" ["b2", "a1"] ["a1", "b2"]
    "location" (List.Perm.swap "a1" "b2" [])

end Stasher
